import Mathlib

/-!
Shallow embedding of the hotel-scraper Express handlers (src/server.js,
src/unnamed/part_000, src/unnamed/part_001).  part_000 contains all four
endpoints (hotel-info, hotel-images, hotel-prices, hotel-suggestions);
server.js and part_001 repeat the same hotel-info (and images/prices)
handlers verbatim, so one embedding covers them.

Pure page-script extractions (the page.evaluate bodies) are translated as
functions over an explicit DOM model.  Each fallible browser-automation step
(goto, waitForSelector, click, evaluate, waitForNavigation) is a value of
Except String in a per-request environment: Except.ok when the awaited
promise resolves and Except.error when it rejects (a selector timeout, a
navigation failure, a click failure).  puppeteer.launch and browser.close
are modelled as always succeeding; waitForTimeout and setTimeout never throw.
JSON response bodies are modelled by JsonVal, where a field whose value is
undefined is omitted, exactly as res.json / JSON.stringify drop it.
-/

/-- JSON values as sent by res.json: strings, arrays and objects are all the
handlers produce.  A field assigned undefined in the source never appears in
the serialized object. -/
inductive JsonVal where
  | s (v : String)
  | arr (vs : List JsonVal)
  | obj (fields : List (String × JsonVal))

/-- Field lookup in a serialized JSON object: the first field with the given
key, none when the value is not an object or the key is absent. -/
def JsonVal.lookup : JsonVal → String → Option JsonVal
  | .obj fs, k => (fs.find? (fun p => p.1 == k)).map Prod.snd
  | .s _, _ => none
  | .arr _, _ => none

/-- Test that the second character list is an initial segment of the first,
by structural recursion so that concrete instances evaluate inside proofs. -/
def charsStartWith : List Char → List Char → Bool
  | _, [] => true
  | [], _ :: _ => false
  | c :: cs, p :: ps => (c == p) && charsStartWith cs ps

/-- JavaScript String.prototype.startsWith. -/
def strStartsWith (s pat : String) : Bool := charsStartWith s.data pat.data

/-- Occurrence of the pattern at any position of the character list. -/
def charsContain : List Char → List Char → Bool
  | [], pat => pat.isEmpty
  | c :: cs, pat => charsStartWith (c :: cs) pat || charsContain cs pat

/-- JavaScript String.prototype.includes. -/
def strIncludes (s pat : String) : Bool := charsContain s.data pat.data

/-- JavaScript falsiness of an optional request-body string: the check
if (!x) fires when the field is absent (undefined) or the empty string. -/
def jsFalsy : Option String → Bool
  | none => true
  | some s => s == ""

/-- JavaScript truthiness filter on an optional string, used for chains of
a || b: an absent value or the empty string is falsy and is skipped. -/
def jsTruthy : Option String → Option String
  | none => none
  | some s => if s == "" then none else some s

/-! ## Image validation (validateImageUrl, part_000 lines 20-29) -/

/-- What the HEAD request of validateImageUrl can observe: the fetch promise
rejected (network error, invalid URL), or a response with its ok flag and the
value of its content-type header (none when the header is absent). -/
inductive HeadOutcome where
  | fetchError
  | response (ok : Bool) (contentType : Option String)

/-- validateImageUrl: true iff the response is ok, its content-type header is
non-null and that header starts with image/.  The try/catch turns any fetch
rejection into false. -/
def validateImageUrl : HeadOutcome → Bool
  | .fetchError => false
  | .response ok ct =>
      ok && (match ct with
             | none => false
             | some c => strStartsWith c "image/")

/-! ## Hotel images extraction (part_000 lines 309-324, 340-350) -/

/-- An img element matched by the selector img with alt starting in Photo:
its src and alt attributes (getAttribute may return null) and the textContent
of its closest data-hotel-feature-id ancestor, when one exists. -/
structure ImgElement where
  src : Option String
  alt : Option String
  caption : Option String

/-- The record built per image in the page script, with the || fallbacks of
the source turning an absent attribute or ancestor into the empty string. -/
structure ImageRecord where
  url : String
  alt : String
  caption : String

def imgToRecord (img : ImgElement) : ImageRecord :=
  { url := img.src.getD "", alt := img.alt.getD "", caption := img.caption.getD "" }

/-- The page script of the hotel-images endpoint: map every matched img
element to a record, then slice(0, 10) keeps the first 10 images. -/
def extractHotelImages (imgs : List ImgElement) : List ImageRecord :=
  (imgs.map imgToRecord).take 10

/-- The Promise.all validation pass: each candidate is mapped, independently
of all others, to some candidate when its own HEAD outcome validates and to
none otherwise (the source maps to image or null). -/
def validatedImages (head : String → HeadOutcome) (hotelImages : List ImageRecord) :
    List (Option ImageRecord) :=
  hotelImages.map (fun image => if validateImageUrl (head image.url) then some image else none)

/-- The filter pass after Promise.all: drop the null slots. -/
def validImages (head : String → HeadOutcome) (hotelImages : List ImageRecord) :
    List ImageRecord :=
  (validatedImages head hotelImages).filterMap id

/-! ## Hotel info extraction (server.js lines 106-143, part_000 lines 125-162) -/

/-- The About-section landmark as the page script reads it: the textContents
of the GtAk2e description blocks and the optional query results for the
check-in/check-out, address, phone and website selectors. -/
structure AboutSection where
  descBlocks : List String
  checkInEl : Option String
  checkOutEl : Option String
  addressEl : Option String
  phoneEl : Option String
  websiteHref : Option String

structure HotelInfo where
  description : String
  checkInTime : String
  checkOutTime : String
  address : String
  phone : String
  websiteUrl : String

/-- The field mapping of the hotel-info page script: description joins the
non-empty blocks with blank lines, every other field falls back to the empty
string when its element is missing. -/
def aboutSectionInfo (s : AboutSection) : HotelInfo :=
  { description := String.intercalate "\n\n" (s.descBlocks.filter (fun t => !(t == ""))),
    checkInTime := s.checkInEl.getD "",
    checkOutTime := s.checkOutEl.getD "",
    address := s.addressEl.getD "",
    phone := s.phoneEl.getD "",
    websiteUrl := s.websiteHref.getD "" }

/-- The whole evaluate body: null when the About section is absent from the
live DOM, otherwise the extracted record. -/
def extractHotelInfo : Option AboutSection → Option HotelInfo
  | none => none
  | some s => some (aboutSectionInfo s)

/-! ## Hotel suggestions extraction (part_000 lines 840-906) -/

/-- One element matched by the uaTTDe selector, as the page script queries
it: optional query results for each field selector, plus the textContents of
the amenity elements. -/
structure HotelElement where
  nameEl : Option String
  priceEl : Option String
  ratingEl : Option String
  reviewsEl : Option String
  dealEl : Option String
  urlAttr : Option String
  imageAttr : Option String
  locationEl : Option String
  amenitiesTexts : List String
  descriptionEl : Option String

structure HotelSuggestion where
  name : String
  price : String
  rating : String
  reviews : String
  deal : String
  url : String
  image : String
  location : String
  amenities : List String
  description : String

/-- The per-element field mapping: each optional chain falls back to the
empty string; reviews strips the parentheses around the count. -/
def elementToSuggestion (e : HotelElement) : HotelSuggestion :=
  { name := e.nameEl.getD "",
    price := e.priceEl.getD "",
    rating := e.ratingEl.getD "",
    reviews := (e.reviewsEl.map (fun s => (s.replace "(" "").replace ")" "")).getD "",
    deal := e.dealEl.getD "",
    url := e.urlAttr.getD "",
    image := e.imageAttr.getD "",
    location := e.locationEl.getD "",
    amenities := e.amenitiesTexts,
    description := e.descriptionEl.getD "" }

/-- The suggestions page script: slice(0, 10) the matched elements first,
then build one record per kept element. -/
def extractHotelSuggestions (elems : List HotelElement) : List HotelSuggestion :=
  (elems.take 10).map elementToSuggestion

/-! ## Hotel prices extraction (part_000 lines 522-655) -/

/-- An anchor element inside a candidate provider div: its href attribute and
the two structural candidates for the room-type text (each already trimmed),
plus the textContents of its span descendants. -/
structure RoomAnchor where
  href : Option String
  typeA : Option String
  typeB : Option String
  spans : List String

/-- The selector a with href starting in /aclk? as a test on one anchor. -/
def isAclkAnchor (a : RoomAnchor) : Bool :=
  match a.href with
  | none => false
  | some h => strStartsWith h "/aclk?"

/-- A div of the document, carrying its anchor descendants and the
textContents of its span descendants. -/
structure DivElement where
  anchors : List RoomAnchor
  spans : List String

structure RoomData where
  type : String
  basePrice : String
  totalPrice : String
  url : String
  cancellationPolicy : Option String
  features : Option (List String)

/-- The per-room mapping of the prices page script.  The source declares
let cancellationPolicy and never assigns it, so the field is always
undefined; the span loop inside the room callback pushes into the outer
features list of the provider section, never into roomFeatures, so
roomFeatures stays empty and the features field is always undefined too. -/
def roomDataOf (room : RoomAnchor) : RoomData :=
  let type := ((jsTruthy room.typeA).orElse (fun _ => jsTruthy room.typeB)).getD
      "Unknown Room Type"
  let allSpans := room.spans.map (fun s => s.trim)
  let basePrice := (allSpans.find? (fun t =>
      !(t == "") && strIncludes t "$" && !(strIncludes t.toLower "taxes"))).getD ""
  let totalPrice := (allSpans.find? (fun t =>
      !(t == "") && strIncludes t "$" && strIncludes t.toLower "taxes")).getD basePrice
  let relativeUrl := room.href.getD ""
  let url := if strStartsWith relativeUrl "http" then relativeUrl
             else "https://www.google.com/travel" ++ relativeUrl
  let roomFeatures : List String := []
  let cancellationPolicy : Option String := none
  { type := type, basePrice := basePrice, totalPrice := totalPrice, url := url,
    cancellationPolicy := cancellationPolicy,
    features := if roomFeatures.length > 0 then some roomFeatures else none }

structure PriceListing where
  rooms : List RoomData

/-- The prices page script: find the first div containing an anchor with
href starting in /aclk?; with no such div the result is the empty list,
otherwise a single listing whose rooms map over exactly the matching anchors
of that div.  providerName, providerLogo and the feature/support/memberDeal
scan are computed in the source but are not part of the returned value. -/
def extractPriceListings (divs : List DivElement) : List PriceListing :=
  match divs.find? (fun d => d.anchors.any isAclkAnchor) with
  | none => []
  | some providerSection =>
      [{ rooms := (providerSection.anchors.filter isAclkAnchor).map roomDataOf }]

/-! ## Request handlers

Each handler is a function of the request-body fields it destructures, the
NODE_ENV development flag, and a per-request environment giving the outcome
of every fallible automation step and the DOM state the page scripts read.
The result records the HTTP status, the JSON body, and whether a browser was
launched for the request and closed before the response was sent. -/

/-- One HTTP response as the handler produces it, together with the fate of
the request's browser session. -/
structure HandlerResult where
  status : Nat
  body : JsonVal
  browserLaunched : Bool
  browserClosed : Bool

def HotelInfo.toJson (i : HotelInfo) : JsonVal :=
  .obj [("description", .s i.description), ("checkInTime", .s i.checkInTime),
        ("checkOutTime", .s i.checkOutTime), ("address", .s i.address),
        ("phone", .s i.phone), ("websiteUrl", .s i.websiteUrl)]

def ImageRecord.toJson (r : ImageRecord) : JsonVal :=
  .obj [("url", .s r.url), ("alt", .s r.alt), ("caption", .s r.caption)]

def HotelSuggestion.toJson (h : HotelSuggestion) : JsonVal :=
  .obj [("name", .s h.name), ("price", .s h.price), ("rating", .s h.rating),
        ("reviews", .s h.reviews), ("deal", .s h.deal), ("url", .s h.url),
        ("image", .s h.image), ("location", .s h.location),
        ("amenities", .arr (h.amenities.map JsonVal.s)),
        ("description", .s h.description)]

/-- Serialization of one room record: the fields assigned undefined in the
source (cancellationPolicy, features) are dropped by res.json. -/
def RoomData.toJson (r : RoomData) : JsonVal :=
  .obj ([("type", .s r.type), ("basePrice", .s r.basePrice),
         ("totalPrice", .s r.totalPrice), ("url", .s r.url)]
    ++ (match r.cancellationPolicy with
        | some c => [("cancellationPolicy", .s c)]
        | none => [])
    ++ (match r.features with
        | some fs => [("features", .arr (fs.map JsonVal.s))]
        | none => []))

def PriceListing.toJson (l : PriceListing) : JsonVal :=
  .obj [("rooms", .arr (l.rooms.map RoomData.toJson))]

/-- The 500 body shared by all catch blocks: error text, the thrown message,
and a details field only under NODE_ENV development (the stack trace, here
stood in for by the message). -/
def errorBody (errText msg : String) (dev : Bool) : JsonVal :=
  .obj ([("error", .s errText), ("message", .s msg)] ++
        (if dev then [("details", .s msg)] else []))

/-! ### hotel-info (server.js lines 42-169, part_000 lines 61-188) -/

/-- The fallible steps of the hotel-info handler after launch, in source
order, plus the DOM the final evaluate reads. -/
structure InfoEnv where
  goto : Except String Unit
  aboutTabCheck : Except String Bool
  clickAboutDirect : Except String Unit
  waitEntityLink : Except String Unit
  clickEntityLink : Except String Unit
  waitNavigation : Except String Unit
  waitAboutTab : Except String Unit
  clickAboutTab : Except String Unit
  waitAboutSection : Except String Unit
  aboutDom : Except String (Option AboutSection)

/-- The guarded region of the hotel-info handler: navigate, branch on the
About tab being visible, otherwise click through the entity link, then wait
for the section.mEKuwe landmark (a timeout here rejects) and evaluate the
extraction.  The 5 second setTimeout before close never throws. -/
def infoAutomation (env : InfoEnv) : Except String (Option HotelInfo) := do
  env.goto
  let aboutTabExists ← env.aboutTabCheck
  if aboutTabExists then
    env.clickAboutDirect
  else do
    env.waitEntityLink
    env.clickEntityLink
    env.waitNavigation
    env.waitAboutTab
    env.clickAboutTab
  env.waitAboutSection
  let dom ← env.aboutDom
  pure (extractHotelInfo dom)

/-- The hotel-info endpoint.  Validation happens before launch; the browser
is closed on the success and not-found paths before the response, while the
catch block answers 500 without closing the browser. -/
def hotelInfoHandler (destination : Option String) (dev : Bool) (env : InfoEnv) :
    HandlerResult :=
  if jsFalsy destination then
    { status := 400,
      body := .obj [("error", .s "Missing required parameter: destination"),
                    ("example", .obj [("destination", .s "Hilton New York")])],
      browserLaunched := false, browserClosed := false }
  else
    match infoAutomation env with
    | .error m =>
        { status := 500,
          body := errorBody "Failed to scrape hotel information" m dev,
          browserLaunched := true, browserClosed := false }
    | .ok none =>
        { status := 404,
          body := .obj [("error", .s "Could not find hotel information"),
                        ("message", .s "The hotel information could not be found. Please try a different hotel name or location.")],
          browserLaunched := true, browserClosed := true }
    | .ok (some hotelInfo) =>
        { status := 200,
          body := .obj [("hotelInfo", hotelInfo.toJson)],
          browserLaunched := true, browserClosed := true }

/-! ### hotel-images (part_000 lines 191-370) -/

/-- The three nested click strategies of the images and prices variants: the
direct click, then on failure the evaluate click, then on failure the mouse
click whose own failure propagates to the outer catch. -/
def tryClickStrategies (direct evalClick mouse : Except String Unit) :
    Except String Unit :=
  match direct with
  | .ok _ => .ok ()
  | .error _ =>
      match evalClick with
      | .ok _ => .ok ()
      | .error _ => mouse

/-- The fallible steps of the hotel-images handler after launch, in source
order, plus the DOM the extraction evaluate reads and the HEAD outcome of
every image URL. -/
structure ImagesEnv where
  goto : Except String Unit
  entityLinkCheck : Except String Bool
  waitEntityVisible : Except String Unit
  clickDirect : Except String Unit
  clickEvaluate : Except String Unit
  clickMouse : Except String Unit
  photosTabCheck : Except String Bool
  clickPhotosDirect : Except String Unit
  waitEntityLink : Except String Unit
  clickEntityLink : Except String Unit
  waitNavigation : Except String Unit
  waitPhotosTab : Except String Unit
  clickPhotosTab : Except String Unit
  waitPhotosSection : Except String Unit
  imgDom : Except String (List ImgElement)
  head : String → HeadOutcome

/-- The guarded region of the hotel-images handler.  The waitForNavigation
after the entity click carries a .catch, so its timeout is swallowed; the
final wait on the data-hotel-feature-id landmark rejects on timeout. -/
def imagesAutomation (env : ImagesEnv) : Except String (List ImageRecord) := do
  env.goto
  let entityLinkExists ← env.entityLinkCheck
  if entityLinkExists then do
    env.waitEntityVisible
    tryClickStrategies env.clickDirect env.clickEvaluate env.clickMouse
    pure ()
  else
    pure ()
  let photosTabExists ← env.photosTabCheck
  if photosTabExists then
    env.clickPhotosDirect
  else do
    env.waitEntityLink
    env.clickEntityLink
    env.waitNavigation
    env.waitPhotosTab
    env.clickPhotosTab
  env.waitPhotosSection
  let imgs ← env.imgDom
  pure (extractHotelImages imgs)

/-- The hotel-images endpoint: validation before launch, browser closed
before the empty-check, the HEAD validation pass after close, and a catch
block answering 500 without closing the browser. -/
def hotelImagesHandler (destination : Option String) (dev : Bool) (env : ImagesEnv) :
    HandlerResult :=
  if jsFalsy destination then
    { status := 400,
      body := .obj [("error", .s "Missing required parameter: destination"),
                    ("example", .obj [("destination", .s "Hilton New York")])],
      browserLaunched := false, browserClosed := false }
  else
    match imagesAutomation env with
    | .error m =>
        { status := 500,
          body := errorBody "Failed to scrape hotel images" m dev,
          browserLaunched := true, browserClosed := false }
    | .ok hotelImages =>
        if hotelImages.isEmpty then
          { status := 404,
            body := .obj [("error", .s "Could not find hotel images"),
                          ("message", .s "No images were found for the specified hotel. Please try a different hotel name or location.")],
            browserLaunched := true, browserClosed := true }
        else
          let valid := validImages env.head hotelImages
          if valid.isEmpty then
            { status := 404,
              body := .obj [("error", .s "Could not find valid hotel images"),
                            ("message", .s "No valid images were found after validation. Please try a different hotel name or location.")],
              browserLaunched := true, browserClosed := true }
          else
            { status := 200,
              body := .obj [("hotelImages", .arr (valid.map ImageRecord.toJson))],
              browserLaunched := true, browserClosed := true }

/-! ### hotel-prices (part_000 lines 373-676) -/

/-- The fallible steps of the hotel-prices handler after launch.  The
Prices-tab waits and clicks sit inside try/catch in both branches and the
post-click waitForNavigation carries a .catch, so none of them can reject
the guarded region; they are therefore not part of the environment. -/
structure PricesEnv where
  goto : Except String Unit
  entityLinkCheck : Except String Bool
  waitEntityVisible : Except String Unit
  clickDirect : Except String Unit
  clickEvaluate : Except String Unit
  clickMouse : Except String Unit
  divsDom : Except String (List DivElement)

/-- The guarded region of the hotel-prices handler: navigate, optionally
click the entity link (three strategies), then evaluate the extraction.
waitForTimeout never throws. -/
def pricesAutomation (env : PricesEnv) : Except String (List PriceListing) := do
  env.goto
  let entityLinkExists ← env.entityLinkCheck
  if entityLinkExists then do
    env.waitEntityVisible
    tryClickStrategies env.clickDirect env.clickEvaluate env.clickMouse
    pure ()
  else
    pure ()
  let divs ← env.divsDom
  pure (extractPriceListings divs)

/-- The hotel-prices endpoint.  The 400 body carries error and required
fields; the browser is closed before the empty-check; the catch block
answers 500 without closing the browser. -/
def hotelPricesHandler (hotelName location checkInDate checkOutDate : Option String)
    (dev : Bool) (env : PricesEnv) : HandlerResult :=
  if jsFalsy hotelName || jsFalsy location || jsFalsy checkInDate || jsFalsy checkOutDate then
    { status := 400,
      body := .obj [("error", .s "Missing required parameters"),
                    ("required", .obj [("hotelName", .s "Name of the hotel"),
                                       ("location", .s "City or location"),
                                       ("checkInDate", .s "Check-in date (YYYY-MM-DD)"),
                                       ("checkOutDate", .s "Check-out date (YYYY-MM-DD)")])],
      browserLaunched := false, browserClosed := false }
  else
    match pricesAutomation env with
    | .error m =>
        { status := 500,
          body := errorBody "Failed to fetch hotel prices" m dev,
          browserLaunched := true, browserClosed := false }
    | .ok priceListings =>
        if priceListings.isEmpty then
          { status := 404,
            body := .obj [("error", .s "Could not find hotel prices"),
                          ("message", .s "No price listings were found for the specified hotel. Please try a different hotel name or location.")],
            browserLaunched := true, browserClosed := true }
        else
          { status := 200,
            body := .obj [("prices", .arr (priceListings.map PriceListing.toJson))],
            browserLaunched := true, browserClosed := true }

/-! ### hotel-suggestions (part_000 lines 679-929) -/

/-- The fallible steps of the hotel-suggestions handler after launch that
precede the suggestions-container wait, in source order, plus that wait and
the DOM the extraction evaluate reads. -/
structure SuggestionsEnv where
  gotoHome : Except String Unit
  waitSearchInput : Except String Unit
  typeQuery : Except String Unit
  waitGuestComponent : Except String Unit
  clickGuestComponent : Except String Unit
  waitGuestDropdown : Except String Unit
  selectGuests : Except String Unit
  waitSuggestionsContainer : Except String Unit
  suggDom : Except String (List HotelElement)

/-- Every automation step of the suggestions handler before the landmark
wait: homepage load, typing the query, guest-count selection.  Any rejection
here reaches the outer catch. -/
def suggestionsPreSteps (env : SuggestionsEnv) : Except String Unit := do
  env.gotoHome
  env.waitSearchInput
  env.typeQuery
  env.waitGuestComponent
  env.clickGuestComponent
  env.waitGuestDropdown
  env.selectGuests

/-- What the suggestions handler's guarded region can end in: an uncaught
rejection (outer catch), the landmark wait timing out inside its own
try/catch (browser closed, then 404), or an extracted list. -/
inductive SuggestionsOutcome where
  | thrown (msg : String)
  | blocked
  | extracted (suggestions : List HotelSuggestion)

def suggestionsAutomation (env : SuggestionsEnv) : SuggestionsOutcome :=
  match suggestionsPreSteps env with
  | .error m => .thrown m
  | .ok _ =>
      match env.waitSuggestionsContainer with
      | .error _ => .blocked
      | .ok _ =>
          match env.suggDom with
          | .error m => .thrown m
          | .ok elems => .extracted (extractHotelSuggestions elems)

/-- The hotel-suggestions endpoint.  The handler destructures the body but
never validates any field, so the browser is launched for every request; the
landmark-timeout 404 and the empty-list 404 carry only an error field; the
catch block answers 500 without closing the browser. -/
def hotelSuggestionsHandler (destination checkIn checkOut travelers : Option String)
    (dev : Bool) (env : SuggestionsEnv) : HandlerResult :=
  match suggestionsAutomation env with
  | .thrown m =>
      { status := 500,
        body := errorBody "Failed to scrape hotel deals" m dev,
        browserLaunched := true, browserClosed := false }
  | .blocked =>
      { status := 404,
        body := .obj [("error", .s "No hotel suggestions found. The search might have been blocked.")],
        browserLaunched := true, browserClosed := true }
  | .extracted suggestions =>
      if suggestions.isEmpty then
        { status := 404,
          body := .obj [("error", .s "No hotel suggestions found")],
          browserLaunched := true, browserClosed := true }
      else
        { status := 200,
          body := .obj [("hotelSuggestions", .arr (suggestions.map HotelSuggestion.toJson))],
          browserLaunched := true, browserClosed := true }

/-! ## Concrete sample inputs used by the closed theorems below -/

/-- A fully populated About section, as on a hotel page whose every selector
matches. -/
def sampleAboutSection : AboutSection :=
  { descBlocks := ["A lovely hotel in the heart of the city."],
    checkInEl := some "3:00 PM",
    checkOutEl := some "11:00 AM",
    addressEl := some "1 Main Street, New York",
    phoneEl := some "(212) 555-0100",
    websiteHref := some "https://hotel.example" }

/-- A hotel-info request whose every automation step resolves and whose page
carries the About section. -/
def infoEnvAllOk : InfoEnv :=
  { goto := .ok (), aboutTabCheck := .ok true, clickAboutDirect := .ok (),
    waitEntityLink := .ok (), clickEntityLink := .ok (), waitNavigation := .ok (),
    waitAboutTab := .ok (), clickAboutTab := .ok (), waitAboutSection := .ok (),
    aboutDom := .ok (some sampleAboutSection) }

/-- The same request with the initial navigation rejecting. -/
def infoEnvGotoFails : InfoEnv :=
  { infoEnvAllOk with goto := .error "net::ERR_NAME_NOT_RESOLVED" }

/-- The same request with every step up to the landmark wait resolving, and
the 15 second wait on section.mEKuwe timing out because the About section
never appears. -/
def infoEnvLandmarkTimeout : InfoEnv :=
  { infoEnvAllOk with
    waitAboutSection := .error "TimeoutError: waiting for selector section.mEKuwe failed" }

/-- One room anchor of a provider section: an /aclk? href, a room-type
element, and two price spans. -/
def sampleRoomAnchor : RoomAnchor :=
  { href := some "/aclk?sa=l&ai=abc",
    typeA := some "Deluxe King Room",
    typeB := none,
    spans := ["$120", "$140 total with taxes"] }

/-- The first document div containing an /aclk? anchor. -/
def sampleDiv : DivElement :=
  { anchors := [sampleRoomAnchor], spans := ["Booking.com"] }

/-- A hotel-prices request whose every automation step resolves and whose
page carries the sample provider section. -/
def pricesEnvAllOk : PricesEnv :=
  { goto := .ok (), entityLinkCheck := .ok true, waitEntityVisible := .ok (),
    clickDirect := .ok (), clickEvaluate := .ok (), clickMouse := .ok (),
    divsDom := .ok [sampleDiv] }

/-- One matched suggestion element with every field selector resolving. -/
def sampleHotelElement : HotelElement :=
  { nameEl := some "The Grand Hotel",
    priceEl := some "$199",
    ratingEl := some "4.5",
    reviewsEl := some "(1,234)",
    dealEl := none,
    urlAttr := some "/travel/hotels/entity/x",
    imageAttr := some "https://img.example/1.jpg",
    locationEl := some "Midtown",
    amenitiesTexts := ["Free Wi-Fi", "Pool"],
    descriptionEl := some "A grand stay." }

/-- A hotel-suggestions request whose every automation step resolves and
whose results page carries one suggestion card. -/
def suggEnvAllOk : SuggestionsEnv :=
  { gotoHome := .ok (), waitSearchInput := .ok (), typeQuery := .ok (),
    waitGuestComponent := .ok (), clickGuestComponent := .ok (),
    waitGuestDropdown := .ok (), selectGuests := .ok (),
    waitSuggestionsContainer := .ok (),
    suggDom := .ok [sampleHotelElement] }

/-- The possibility claimed by C9: some page state makes the prices
extraction return a listing whose rooms array is empty. -/
def emptyRoomsListingPossible : Prop :=
  ∃ divs : List DivElement, ∃ l ∈ extractPriceListings divs, l.rooms = []

/-! ## Helper lemmas -/

theorem except_bind_ok {α β : Type} (a : α) (f : α → Except String β) :
    (Except.ok a >>= f : Except String β) = f a := rfl

theorem except_bind_error {α β : Type} (m : String) (f : α → Except String β) :
    ((Except.error m : Except String α) >>= f) = Except.error m := rfl

/-- Characterization of validateImageUrl: it answers true exactly on an ok
response whose content-type header is present and starts with image/. -/
theorem validateImageUrl_true_iff (o : HeadOutcome) :
    validateImageUrl o = true ↔
      ∃ ct, o = HeadOutcome.response true (some ct) ∧ strStartsWith ct "image/" = true := by
  cases o with
  | fetchError => simp [validateImageUrl]
  | response ok ct => cases ok <;> cases ct <;> simp [validateImageUrl]

/-- Membership in the filtered validation result is membership among the
candidates together with a passing HEAD outcome for that very URL. -/
theorem mem_validImages_iff (head : String → HeadOutcome) (candidates : List ImageRecord)
    (img : ImageRecord) :
    img ∈ validImages head candidates ↔
      img ∈ candidates ∧ validateImageUrl (head img.url) = true := by
  unfold validImages validatedImages
  simp only [List.mem_filterMap, List.mem_map, id]
  constructor
  · rintro ⟨a, ⟨b, hb, rfl⟩, ha⟩
    by_cases h : validateImageUrl (head b.url) = true
    · rw [if_pos h] at ha
      cases ha
      exact ⟨hb, h⟩
    · rw [if_neg h] at ha
      cases ha
  · rintro ⟨hmem, hval⟩
    exact ⟨some img, ⟨img, hmem, if_pos hval⟩, rfl⟩

/-- The validation pass can only shrink the candidate list. -/
theorem validImages_length_le (head : String → HeadOutcome) (l : List ImageRecord) :
    (validImages head l).length ≤ l.length := by
  unfold validImages
  exact le_trans (List.length_filterMap_le _ _) (le_of_eq (List.length_map _ _))

/-- Browser fate in the hotel-info handler: the session is closed exactly
when one was launched and the response is not the catch block's 500. -/
theorem hotelInfo_closed_eq (d : Option String) (dev : Bool) (env : InfoEnv) :
    (hotelInfoHandler d dev env).browserClosed =
      ((hotelInfoHandler d dev env).browserLaunched &&
        ((hotelInfoHandler d dev env).status != 500)) := by
  unfold hotelInfoHandler
  split
  · rfl
  · split <;> rfl

/-- Browser fate in the hotel-images handler. -/
theorem hotelImages_closed_eq (d : Option String) (dev : Bool) (env : ImagesEnv) :
    (hotelImagesHandler d dev env).browserClosed =
      ((hotelImagesHandler d dev env).browserLaunched &&
        ((hotelImagesHandler d dev env).status != 500)) := by
  unfold hotelImagesHandler
  split
  · rfl
  · split
    · rfl
    · split
      · rfl
      · simp only []
        split <;> rfl

/-- Browser fate in the hotel-prices handler. -/
theorem hotelPrices_closed_eq (hn loc ci co : Option String) (dev : Bool) (env : PricesEnv) :
    (hotelPricesHandler hn loc ci co dev env).browserClosed =
      ((hotelPricesHandler hn loc ci co dev env).browserLaunched &&
        ((hotelPricesHandler hn loc ci co dev env).status != 500)) := by
  unfold hotelPricesHandler
  split
  · rfl
  · split
    · rfl
    · split <;> rfl

/-- Browser fate in the hotel-suggestions handler. -/
theorem hotelSuggestions_closed_eq (d ci co tr : Option String) (dev : Bool)
    (env : SuggestionsEnv) :
    (hotelSuggestionsHandler d ci co tr dev env).browserClosed =
      ((hotelSuggestionsHandler d ci co tr dev env).browserLaunched &&
        ((hotelSuggestionsHandler d ci co tr dev env).status != 500)) := by
  unfold hotelSuggestionsHandler
  split
  · rfl
  · rfl
  · split <;> rfl

/-! ## Claim theorems -/

/-- C1 counterexample: with the initial navigation rejecting after launch,
the hotel-info handler answers 500 while the browser it launched is never
closed, so the claimed close-on-every-path fails on the exception path. -/
theorem c1_cex_browser_leak_on_error :
    (hotelInfoHandler (some "Hilton New York") false infoEnvGotoFails).status = 500 ∧
    (hotelInfoHandler (some "Hilton New York") false infoEnvGotoFails).browserLaunched = true ∧
    (hotelInfoHandler (some "Hilton New York") false infoEnvGotoFails).browserClosed = false :=
  ⟨rfl, rfl, rfl⟩

/-- C1 (amended): on every endpoint the browser is closed before the
response exactly on the non-exception paths: a launched session is closed
iff the response is not the catch block's 500, and an exception after launch
leaves the browser open. -/
theorem c1_browser_teardown :
    (∀ (d : Option String) (dev : Bool) (env : InfoEnv),
        (hotelInfoHandler d dev env).browserClosed =
          ((hotelInfoHandler d dev env).browserLaunched &&
            ((hotelInfoHandler d dev env).status != 500))) ∧
    (∀ (d : Option String) (dev : Bool) (env : ImagesEnv),
        (hotelImagesHandler d dev env).browserClosed =
          ((hotelImagesHandler d dev env).browserLaunched &&
            ((hotelImagesHandler d dev env).status != 500))) ∧
    (∀ (hn loc ci co : Option String) (dev : Bool) (env : PricesEnv),
        (hotelPricesHandler hn loc ci co dev env).browserClosed =
          ((hotelPricesHandler hn loc ci co dev env).browserLaunched &&
            ((hotelPricesHandler hn loc ci co dev env).status != 500))) ∧
    (∀ (d ci co tr : Option String) (dev : Bool) (env : SuggestionsEnv),
        (hotelSuggestionsHandler d ci co tr dev env).browserClosed =
          ((hotelSuggestionsHandler d ci co tr dev env).browserLaunched &&
            ((hotelSuggestionsHandler d ci co tr dev env).status != 500))) :=
  ⟨hotelInfo_closed_eq, hotelImages_closed_eq, hotelPrices_closed_eq,
   hotelSuggestions_closed_eq⟩

/-- C2: an image is in the validated list iff it is among the extracted
candidates and its own HEAD request yields an ok response whose content-type
is present and starts with image/; and the Promise.all pass keeps one
independent slot per candidate, so one candidate's failure cannot drop the
batch. -/
theorem c2_image_validation_filter :
    (∀ (head : String → HeadOutcome) (candidates : List ImageRecord) (img : ImageRecord),
        img ∈ validImages head candidates ↔
          img ∈ candidates ∧
            ∃ ct, head img.url = HeadOutcome.response true (some ct) ∧
              strStartsWith ct "image/" = true) ∧
    (∀ (head : String → HeadOutcome) (candidates : List ImageRecord),
        (validatedImages head candidates).length = candidates.length) := by
  constructor
  · intro head candidates img
    rw [mem_validImages_iff]
    exact and_congr_right (fun _ => validateImageUrl_true_iff (head img.url))
  · intro head candidates
    exact List.length_map _ _

/-- C5: the suggestions extractor keeps at most the first 10 matched
elements, the images extractor keeps at most the first 10 candidates, and
the validated images list stays at most 10 long. -/
theorem c5_truncation_at_ten :
    (∀ elems : List HotelElement, (extractHotelSuggestions elems).length ≤ 10) ∧
    (∀ imgs : List ImgElement, (extractHotelImages imgs).length ≤ 10) ∧
    (∀ (head : String → HeadOutcome) (imgs : List ImgElement),
        (validImages head (extractHotelImages imgs)).length ≤ 10) := by
  refine ⟨?_, ?_, ?_⟩
  · intro elems
    simp only [extractHotelSuggestions, List.length_map, List.length_take]
    exact Nat.min_le_left _ _
  · intro imgs
    simp only [extractHotelImages, List.length_take]
    exact Nat.min_le_left _ _
  · intro head imgs
    refine le_trans (validImages_length_le _ _) ?_
    simp only [extractHotelImages, List.length_take]
    exact Nat.min_le_left _ _

/-- C10: validateImageUrl is total over every HEAD outcome: a rejected fetch
yields false, a missing content-type header yields false, and it answers
true exactly on an ok response whose content-type starts with image/. -/
theorem c10_validate_image_url_total :
    (validateImageUrl HeadOutcome.fetchError = false) ∧
    (∀ ok : Bool, validateImageUrl (HeadOutcome.response ok none) = false) ∧
    (∀ o : HeadOutcome, validateImageUrl o = true ↔
        ∃ ct, o = HeadOutcome.response true (some ct) ∧ strStartsWith ct "image/" = true) := by
  refine ⟨rfl, ?_, validateImageUrl_true_iff⟩
  intro ok
  cases ok <;> rfl

theorem except_pure {α : Type} (a : α) : (pure a : Except String α) = Except.ok a := rfl

/-- C3 counterexample: the hotel-prices endpoint answers a missing required
field with status 400, but its body carries error and required fields and no
example field. -/
theorem c3_cex_prices_400_without_example :
    (hotelPricesHandler none (some "New York") (some "2025-03-01") (some "2025-03-05")
        false pricesEnvAllOk).status = 400 ∧
    ((hotelPricesHandler none (some "New York") (some "2025-03-01") (some "2025-03-05")
        false pricesEnvAllOk).body.lookup "example") = none ∧
    ((hotelPricesHandler none (some "New York") (some "2025-03-01") (some "2025-03-05")
        false pricesEnvAllOk).body.lookup "error").isSome = true :=
  ⟨rfl, rfl, rfl⟩

/-- C3 (amended): hotel-info and hotel-images answer a missing destination
with 400 and an example field; hotel-prices answers 400 with a required
field instead of an example field; hotel-suggestions never validates, so it
never answers 400. -/
theorem c3_missing_field_responses :
    (∀ (d : Option String) (dev : Bool) (env : InfoEnv), jsFalsy d = true →
        (hotelInfoHandler d dev env).status = 400 ∧
        ((hotelInfoHandler d dev env).body.lookup "example").isSome = true) ∧
    (∀ (d : Option String) (dev : Bool) (env : ImagesEnv), jsFalsy d = true →
        (hotelImagesHandler d dev env).status = 400 ∧
        ((hotelImagesHandler d dev env).body.lookup "example").isSome = true) ∧
    (∀ (hn loc ci co : Option String) (dev : Bool) (env : PricesEnv),
        (jsFalsy hn || jsFalsy loc || jsFalsy ci || jsFalsy co) = true →
        (hotelPricesHandler hn loc ci co dev env).status = 400 ∧
        (hotelPricesHandler hn loc ci co dev env).body.lookup "example" = none ∧
        ((hotelPricesHandler hn loc ci co dev env).body.lookup "required").isSome = true) ∧
    (∀ (d ci co tr : Option String) (dev : Bool) (env : SuggestionsEnv),
        (hotelSuggestionsHandler d ci co tr dev env).status ≠ 400) := by
  refine ⟨?_, ?_, ?_, ?_⟩
  · intro d dev env h
    unfold hotelInfoHandler
    rw [if_pos h]
    exact ⟨rfl, rfl⟩
  · intro d dev env h
    unfold hotelImagesHandler
    rw [if_pos h]
    exact ⟨rfl, rfl⟩
  · intro hn loc ci co dev env h
    unfold hotelPricesHandler
    rw [if_pos h]
    exact ⟨rfl, rfl, rfl⟩
  · intro d ci co tr dev env
    unfold hotelSuggestionsHandler
    split
    · simp
    · simp
    · split <;> simp

/-- C4 counterexample: with every step up to the landmark wait resolving and
the About-section landmark never appearing, the hotel-info handler answers
500 (the timeout rejection reaches the catch block), not the claimed 404. -/
theorem c4_cex_info_landmark_timeout_500 :
    (hotelInfoHandler (some "Hilton New York") false infoEnvLandmarkTimeout).status = 500 :=
  rfl

/-- C4 (amended): a 200 from hotel-info always carries an extracted record,
never a null payload; the suggestions handler turns its landmark wait's
failure into a 404; but in hotel-info and hotel-images the landmark wait's
timeout is an uncaught rejection and produces a 500, not a 404. -/
theorem c4_landmark_absent_responses :
    (∀ (d : Option String) (dev : Bool) (env : InfoEnv),
        (hotelInfoHandler d dev env).status = 200 →
          ∃ i, infoAutomation env = Except.ok (some i)) ∧
    (∀ (d ci co tr : Option String) (dev : Bool) (env : SuggestionsEnv) (m : String),
        suggestionsPreSteps env = Except.ok () →
        env.waitSuggestionsContainer = Except.error m →
        (hotelSuggestionsHandler d ci co tr dev env).status = 404) ∧
    (∀ (d : Option String) (dev : Bool) (env : InfoEnv) (m : String),
        jsFalsy d = false →
        env.goto = Except.ok () →
        env.aboutTabCheck = Except.ok true →
        env.clickAboutDirect = Except.ok () →
        env.waitAboutSection = Except.error m →
        (hotelInfoHandler d dev env).status = 500) ∧
    (∀ (d : Option String) (dev : Bool) (env : ImagesEnv) (m : String),
        jsFalsy d = false →
        env.goto = Except.ok () →
        env.entityLinkCheck = Except.ok false →
        env.photosTabCheck = Except.ok true →
        env.clickPhotosDirect = Except.ok () →
        env.waitPhotosSection = Except.error m →
        (hotelImagesHandler d dev env).status = 500) := by
  refine ⟨?_, ?_, ?_, ?_⟩
  · intro d dev env h
    unfold hotelInfoHandler at h
    by_cases hd : jsFalsy d = true
    · rw [if_pos hd] at h
      simp at h
    · rw [if_neg hd] at h
      cases hauto : infoAutomation env with
      | error m => rw [hauto] at h; simp at h
      | ok o =>
          rw [hauto] at h
          cases o with
          | none => simp at h
          | some i => exact ⟨i, rfl⟩
  · intro d ci co tr dev env m hpre hwait
    have hauto : suggestionsAutomation env = SuggestionsOutcome.blocked := by
      simp only [suggestionsAutomation, hpre, hwait]
    simp [hotelSuggestionsHandler, hauto]
  · intro d dev env m hd h1 h2 h3 h4
    have hauto : infoAutomation env = Except.error m := by
      simp only [infoAutomation, h1, h2, h3, h4, except_bind_ok, except_bind_error,
                 except_pure, if_true]
    simp [hotelInfoHandler, hd, hauto]
  · intro d dev env m hd h1 h2 h3 h4 h5
    have hauto : imagesAutomation env = Except.error m := by
      simp only [imagesAutomation, h1, h2, h3, h4, h5, except_bind_ok, except_bind_error,
                 except_pure, if_true, Bool.false_eq_true, if_false]
    simp [hotelImagesHandler, hd, hauto]

/-- C7 counterexample: a hotel-suggestions request with every body field
absent still launches the browser and runs the full automation, since the
handler performs no validation at all. -/
theorem c7_cex_suggestions_launch_without_validation :
    (hotelSuggestionsHandler none none none none false suggEnvAllOk).browserLaunched = true ∧
    (hotelSuggestionsHandler none none none none false suggEnvAllOk).status = 200 :=
  ⟨rfl, rfl⟩

/-- C7 (amended): hotel-info, hotel-images and hotel-prices reject a request
with a falsy required field before any browser is launched, while
hotel-suggestions launches a browser for every request, validated or not. -/
theorem c7_validation_before_launch :
    (∀ (d : Option String) (dev : Bool) (env : InfoEnv), jsFalsy d = true →
        (hotelInfoHandler d dev env).browserLaunched = false) ∧
    (∀ (d : Option String) (dev : Bool) (env : ImagesEnv), jsFalsy d = true →
        (hotelImagesHandler d dev env).browserLaunched = false) ∧
    (∀ (hn loc ci co : Option String) (dev : Bool) (env : PricesEnv),
        (jsFalsy hn || jsFalsy loc || jsFalsy ci || jsFalsy co) = true →
        (hotelPricesHandler hn loc ci co dev env).browserLaunched = false) ∧
    (∀ (d ci co tr : Option String) (dev : Bool) (env : SuggestionsEnv),
        (hotelSuggestionsHandler d ci co tr dev env).browserLaunched = true) := by
  refine ⟨?_, ?_, ?_, ?_⟩
  · intro d dev env h
    unfold hotelInfoHandler
    rw [if_pos h]
  · intro d dev env h
    unfold hotelImagesHandler
    rw [if_pos h]
  · intro hn loc ci co dev env h
    unfold hotelPricesHandler
    rw [if_pos h]
  · intro d ci co tr dev env
    unfold hotelSuggestionsHandler
    split
    · rfl
    · rfl
    · split <;> rfl

/-- C6 counterexample: a successful 200 from hotel-prices carries a room
whose cancellationPolicy and features fields are undefined (never assigned
in the source), hence absent from the serialized payload instead of being
empty strings. -/
theorem c6_cex_cancellation_policy_undefined :
    (hotelPricesHandler (some "Hilton New York") (some "New York") (some "2025-03-01")
        (some "2025-03-05") false pricesEnvAllOk).status = 200 ∧
    (hotelPricesHandler (some "Hilton New York") (some "New York") (some "2025-03-01")
        (some "2025-03-05") false pricesEnvAllOk).body =
      JsonVal.obj [("prices", JsonVal.arr
        [PriceListing.toJson { rooms := [roomDataOf sampleRoomAnchor] }])] ∧
    (RoomData.toJson (roomDataOf sampleRoomAnchor)).lookup "cancellationPolicy" = none ∧
    (RoomData.toJson (roomDataOf sampleRoomAnchor)).lookup "features" = none :=
  ⟨rfl, rfl, rfl, rfl⟩

/-- C6 (amended): in every successful payload the hotel-info, image,
suggestion and room records serialize their string fields as present string
values, with missing DOM elements already defaulted to the empty string; the
only exceptions are the room fields cancellationPolicy and features, which
are always undefined and therefore absent from the serialized payload. -/
theorem c6_payload_string_fields :
    (∀ s : AboutSection,
        (aboutSectionInfo s).toJson.lookup "description" =
          some (JsonVal.s (aboutSectionInfo s).description) ∧
        (aboutSectionInfo s).toJson.lookup "checkInTime" =
          some (JsonVal.s (aboutSectionInfo s).checkInTime) ∧
        (aboutSectionInfo s).toJson.lookup "checkOutTime" =
          some (JsonVal.s (aboutSectionInfo s).checkOutTime) ∧
        (aboutSectionInfo s).toJson.lookup "address" =
          some (JsonVal.s (aboutSectionInfo s).address) ∧
        (aboutSectionInfo s).toJson.lookup "phone" =
          some (JsonVal.s (aboutSectionInfo s).phone) ∧
        (aboutSectionInfo s).toJson.lookup "websiteUrl" =
          some (JsonVal.s (aboutSectionInfo s).websiteUrl)) ∧
    (∀ img : ImgElement,
        (imgToRecord img).toJson.lookup "url" = some (JsonVal.s (imgToRecord img).url) ∧
        (imgToRecord img).toJson.lookup "alt" = some (JsonVal.s (imgToRecord img).alt) ∧
        (imgToRecord img).toJson.lookup "caption" =
          some (JsonVal.s (imgToRecord img).caption)) ∧
    (∀ e : HotelElement,
        (elementToSuggestion e).toJson.lookup "name" =
          some (JsonVal.s (elementToSuggestion e).name) ∧
        (elementToSuggestion e).toJson.lookup "price" =
          some (JsonVal.s (elementToSuggestion e).price) ∧
        (elementToSuggestion e).toJson.lookup "rating" =
          some (JsonVal.s (elementToSuggestion e).rating) ∧
        (elementToSuggestion e).toJson.lookup "reviews" =
          some (JsonVal.s (elementToSuggestion e).reviews) ∧
        (elementToSuggestion e).toJson.lookup "deal" =
          some (JsonVal.s (elementToSuggestion e).deal) ∧
        (elementToSuggestion e).toJson.lookup "url" =
          some (JsonVal.s (elementToSuggestion e).url) ∧
        (elementToSuggestion e).toJson.lookup "image" =
          some (JsonVal.s (elementToSuggestion e).image) ∧
        (elementToSuggestion e).toJson.lookup "location" =
          some (JsonVal.s (elementToSuggestion e).location) ∧
        (elementToSuggestion e).toJson.lookup "description" =
          some (JsonVal.s (elementToSuggestion e).description)) ∧
    (∀ a : RoomAnchor,
        (roomDataOf a).toJson.lookup "type" = some (JsonVal.s (roomDataOf a).type) ∧
        (roomDataOf a).toJson.lookup "basePrice" =
          some (JsonVal.s (roomDataOf a).basePrice) ∧
        (roomDataOf a).toJson.lookup "totalPrice" =
          some (JsonVal.s (roomDataOf a).totalPrice) ∧
        (roomDataOf a).toJson.lookup "url" = some (JsonVal.s (roomDataOf a).url) ∧
        (roomDataOf a).toJson.lookup "cancellationPolicy" = none ∧
        (roomDataOf a).toJson.lookup "features" = none) := by
  refine ⟨?_, ?_, ?_, ?_⟩
  · intro s
    exact ⟨rfl, rfl, rfl, rfl, rfl, rfl⟩
  · intro img
    exact ⟨rfl, rfl, rfl⟩
  · intro e
    exact ⟨rfl, rfl, rfl, rfl, rfl, rfl, rfl, rfl, rfl⟩
  · intro a
    exact ⟨rfl, rfl, rfl, rfl, rfl, rfl⟩

/-- C8 counterexample: the hotel-info 400 response carries error and example
fields but no message field, so a failure body does not always include a
message. -/
theorem c8_cex_info_400_without_message :
    (hotelInfoHandler none false infoEnvAllOk).status = 400 ∧
    (hotelInfoHandler none false infoEnvAllOk).body.lookup "message" = none ∧
    ((hotelInfoHandler none false infoEnvAllOk).body.lookup "error").isSome = true :=
  ⟨rfl, rfl, rfl⟩

/-- C8 (amended): every failure body carries an error field; the 500 bodies
always carry a message; the 404 bodies of hotel-info, hotel-images and
hotel-prices carry a message; but the 400 bodies and both hotel-suggestions
404 bodies carry no message field. -/
theorem c8_failure_body_fields :
    (∀ (d : Option String) (dev : Bool) (env : InfoEnv),
        ((hotelInfoHandler d dev env).status ≠ 200 →
          ((hotelInfoHandler d dev env).body.lookup "error").isSome = true) ∧
        ((hotelInfoHandler d dev env).status = 500 →
          ((hotelInfoHandler d dev env).body.lookup "message").isSome = true) ∧
        ((hotelInfoHandler d dev env).status = 404 →
          ((hotelInfoHandler d dev env).body.lookup "message").isSome = true) ∧
        ((hotelInfoHandler d dev env).status = 400 →
          (hotelInfoHandler d dev env).body.lookup "message" = none)) ∧
    (∀ (d : Option String) (dev : Bool) (env : ImagesEnv),
        ((hotelImagesHandler d dev env).status ≠ 200 →
          ((hotelImagesHandler d dev env).body.lookup "error").isSome = true) ∧
        ((hotelImagesHandler d dev env).status = 500 →
          ((hotelImagesHandler d dev env).body.lookup "message").isSome = true) ∧
        ((hotelImagesHandler d dev env).status = 404 →
          ((hotelImagesHandler d dev env).body.lookup "message").isSome = true) ∧
        ((hotelImagesHandler d dev env).status = 400 →
          (hotelImagesHandler d dev env).body.lookup "message" = none)) ∧
    (∀ (hn loc ci co : Option String) (dev : Bool) (env : PricesEnv),
        ((hotelPricesHandler hn loc ci co dev env).status ≠ 200 →
          ((hotelPricesHandler hn loc ci co dev env).body.lookup "error").isSome = true) ∧
        ((hotelPricesHandler hn loc ci co dev env).status = 500 →
          ((hotelPricesHandler hn loc ci co dev env).body.lookup "message").isSome = true) ∧
        ((hotelPricesHandler hn loc ci co dev env).status = 404 →
          ((hotelPricesHandler hn loc ci co dev env).body.lookup "message").isSome = true) ∧
        ((hotelPricesHandler hn loc ci co dev env).status = 400 →
          (hotelPricesHandler hn loc ci co dev env).body.lookup "message" = none)) ∧
    (∀ (d ci co tr : Option String) (dev : Bool) (env : SuggestionsEnv),
        ((hotelSuggestionsHandler d ci co tr dev env).status ≠ 200 →
          ((hotelSuggestionsHandler d ci co tr dev env).body.lookup "error").isSome = true) ∧
        ((hotelSuggestionsHandler d ci co tr dev env).status = 500 →
          ((hotelSuggestionsHandler d ci co tr dev env).body.lookup "message").isSome = true) ∧
        ((hotelSuggestionsHandler d ci co tr dev env).status = 404 →
          (hotelSuggestionsHandler d ci co tr dev env).body.lookup "message" = none)) := by
  refine ⟨?_, ?_, ?_, ?_⟩
  · intro d dev env
    unfold hotelInfoHandler
    split
    · exact ⟨fun _ => rfl, fun h => by simp at h, fun h => by simp at h, fun _ => rfl⟩
    · split
      · exact ⟨fun _ => rfl, fun _ => rfl, fun h => by simp at h, fun h => by simp at h⟩
      · exact ⟨fun _ => rfl, fun h => by simp at h, fun _ => rfl, fun h => by simp at h⟩
      · exact ⟨fun h => absurd rfl h, fun h => by simp at h, fun h => by simp at h,
               fun h => by simp at h⟩
  · intro d dev env
    unfold hotelImagesHandler
    split
    · exact ⟨fun _ => rfl, fun h => by simp at h, fun h => by simp at h, fun _ => rfl⟩
    · split
      · exact ⟨fun _ => rfl, fun _ => rfl, fun h => by simp at h, fun h => by simp at h⟩
      · split
        · exact ⟨fun _ => rfl, fun h => by simp at h, fun _ => rfl, fun h => by simp at h⟩
        · simp only []
          split
          · exact ⟨fun _ => rfl, fun h => by simp at h, fun _ => rfl, fun h => by simp at h⟩
          · exact ⟨fun h => absurd rfl h, fun h => by simp at h, fun h => by simp at h,
                   fun h => by simp at h⟩
  · intro hn loc ci co dev env
    unfold hotelPricesHandler
    split
    · exact ⟨fun _ => rfl, fun h => by simp at h, fun h => by simp at h, fun _ => rfl⟩
    · split
      · exact ⟨fun _ => rfl, fun _ => rfl, fun h => by simp at h, fun h => by simp at h⟩
      · split
        · exact ⟨fun _ => rfl, fun h => by simp at h, fun _ => rfl, fun h => by simp at h⟩
        · exact ⟨fun h => absurd rfl h, fun h => by simp at h, fun h => by simp at h,
                 fun h => by simp at h⟩
  · intro d ci co tr dev env
    unfold hotelSuggestionsHandler
    split
    · exact ⟨fun _ => rfl, fun _ => rfl, fun h => by simp at h⟩
    · exact ⟨fun _ => rfl, fun h => by simp at h, fun _ => rfl⟩
    · split
      · exact ⟨fun _ => rfl, fun h => by simp at h, fun _ => rfl⟩
      · exact ⟨fun h => absurd rfl h, fun h => by simp at h, fun h => by simp at h⟩

/-- C9 counterexample: no page state makes the prices extraction return a
listing with an empty rooms array, because the provider section is selected
precisely for containing a matching anchor; the claimed possibility of a 200
carrying an empty rooms list is refuted. -/
theorem c9_cex_no_empty_rooms_listing : ¬ emptyRoomsListingPossible := by
  rintro ⟨divs, l, hl, hrooms⟩
  unfold extractPriceListings at hl
  cases hfind : divs.find? (fun d => d.anchors.any isAclkAnchor) with
  | none =>
      simp only [hfind] at hl
      exact (List.not_mem_nil _ hl)
  | some d =>
      simp only [hfind, List.mem_singleton] at hl
      have hp := List.find?_some hfind
      simp only [List.any_eq_true] at hp
      obtain ⟨a, ha, hpa⟩ := hp
      subst hl
      simp only [] at hrooms
      exact List.not_mem_nil _
        (hrooms ▸ List.mem_map_of_mem roomDataOf (List.mem_filter.mpr ⟨ha, hpa⟩))

/-- C9 (amended): the prices extraction returns the empty list exactly when
no div contains an anchor with href starting in /aclk? (the handler then
answers 404); otherwise it returns a singleton listing whose rooms list is
necessarily non-empty, because the chosen div is chosen for containing a
matching anchor, so a 200 from hotel-prices always carries at least one
room. -/
theorem c9_prices_extraction_shape :
    (∀ divs : List DivElement,
        (extractPriceListings divs = [] ↔
          ∀ d ∈ divs, ∀ a ∈ d.anchors, isAclkAnchor a = false)) ∧
    (∀ divs : List DivElement, extractPriceListings divs ≠ [] →
        ∃ rooms, extractPriceListings divs = [{ rooms := rooms }] ∧ rooms ≠ []) ∧
    (∀ (hn loc ci co : Option String) (dev : Bool) (env : PricesEnv),
        pricesAutomation env = Except.ok [] →
        (jsFalsy hn || jsFalsy loc || jsFalsy ci || jsFalsy co) = false →
        (hotelPricesHandler hn loc ci co dev env).status = 404) := by
  refine ⟨?_, ?_, ?_⟩
  · intro divs
    unfold extractPriceListings
    cases hfind : divs.find? (fun d => d.anchors.any isAclkAnchor) with
    | none =>
        constructor
        · intro _ d hd a ha
          have h := List.find?_eq_none.mp hfind d hd
          rcases Bool.eq_false_or_eq_true (isAclkAnchor a) with hta | hfa
          · exact absurd (List.any_eq_true.mpr ⟨a, ha, hta⟩) h
          · exact hfa
        · intro _
          rfl
    | some d =>
        constructor
        · intro habs
          exact absurd habs (List.cons_ne_nil _ _)
        · intro hall
          have hp := List.find?_some hfind
          simp only [List.any_eq_true] at hp
          obtain ⟨a, ha, hpa⟩ := hp
          have hfalse := hall d (List.mem_of_find?_eq_some hfind) a ha
          rw [hfalse] at hpa
          cases hpa
  · intro divs hne
    unfold extractPriceListings at hne ⊢
    cases hfind : divs.find? (fun d => d.anchors.any isAclkAnchor) with
    | none =>
        simp only [hfind] at hne
        exact absurd rfl hne
    | some d =>
        simp only [hfind]
        refine ⟨(d.anchors.filter isAclkAnchor).map roomDataOf, rfl, ?_⟩
        have hp := List.find?_some hfind
        simp only [List.any_eq_true] at hp
        obtain ⟨a, ha, hpa⟩ := hp
        intro hmap
        exact List.not_mem_nil _
          (hmap ▸ List.mem_map_of_mem roomDataOf (List.mem_filter.mpr ⟨ha, hpa⟩))
  · intro hn loc ci co dev env hauto hvalid
    simp [hotelPricesHandler, hvalid, hauto]
